import Mathlib

/-!
Verification of the backend function-call dispatcher of
`src/backend/backend_agent.py` (class `BackendAgent`): a shallow embedding
of its data model and the three handlers (`share_information`, `end_call`,
`get_shared_information`), together with proofs of the specified
properties.

Python dictionaries are modelled as insertion-ordered association lists,
`datetime.now()` and `uuid.uuid4()` as explicit inputs supplied per call
(an `Env` value), and the degraded document (`_load_data` returning `{}`
after a read failure) as the `none` case of an `Option Document` state.
-/

/-- A minimal JSON value type, used to state facts about the exact shape of
the persisted document (`_load_data`'s `default_data` literal). -/
inductive JVal where
  | str : String → JVal
  | arr : List JVal → JVal
  | obj : List (String × JVal) → JVal
  | nul : JVal
deriving Repr

/-- Top-level keys of a JSON object (empty for non-objects). -/
def JVal.keys : JVal → List String
  | .obj kvs => kvs.map Prod.fst
  | _ => []

/-- Lookup of a key in a JSON object (none for non-objects). -/
def JVal.lookupKey : JVal → String → Option JVal
  | .obj kvs, k => (kvs.find? (fun kv => kv.fst == k)).map Prod.snd
  | _, _ => none

/-- The `default_data` dictionary built by `BackendAgent._load_data`
(lines 26-38) when the backing file does not exist, with the
`datetime.now().isoformat()` value passed in as `now`. -/
def default_data (now : String) : JVal :=
  .obj [
    ("sessions", .obj []),
    ("shared_data", .obj [
      ("call_logs", .arr []),
      ("information_shared", .arr []),
      ("active_sessions", .obj [])
    ]),
    ("metadata", .obj [
      ("created_at", .str now),
      ("version", .str "1.0"),
      ("last_updated", .nul)
    ])
  ]

/-- An entry of the `information_shared` log (`info_entry` dict built in
`_handle_share_information`, lines 106-114). -/
structure InformationRecord where
  id : String
  session_id : String
  caller_id : String
  information : String
  category : String
  timestamp : String
  status : String
deriving Repr, DecidableEq

/-- A per-session dictionary stored under `data["sessions"][session_id]`.
Keys that are only added by later mutations (`last_activity`, `end_time`,
`end_reason`) are `Option`s, `none` meaning the key is absent. -/
structure Session where
  created_at : String
  caller_id : String
  information_count : Nat
  status : String
  last_activity : Option String := none
  end_time : Option String := none
  end_reason : Option String := none
deriving Repr, DecidableEq

/-- An entry of the `call_logs` list (`call_log` dict built in
`_handle_end_call`, lines 160-168). -/
structure CallRecord where
  id : String
  session_id : String
  caller_id : String
  end_time : String
  reason : String
  duration : Int
  information_shared_count : Nat
deriving Repr, DecidableEq

/-- The `shared_data` sub-dictionary of the document.  `active_sessions`
maps session ids to opaque markers; only its key set is ever consulted, so
it is modelled as the list of keys in insertion order. -/
structure SharedData where
  call_logs : List CallRecord
  information_shared : List InformationRecord
  active_sessions : List String
deriving Repr, DecidableEq

/-- The `metadata` sub-dictionary of the document. -/
structure Metadata where
  created_at : String
  version : String
  last_updated : Option String
deriving Repr, DecidableEq

/-- The in-memory document `self.data`: top-level keys `sessions`,
`shared_data` and `metadata`.  `sessions` is an insertion-ordered
association list, as a Python dict is. -/
structure Document where
  sessions : List (String × Session)
  shared_data : SharedData
  metadata : Metadata
deriving Repr, DecidableEq

/-- The parameter bag of a function call.  `none` models an absent key;
`parameters.get(k, default)` becomes `Option.getD`. -/
structure Params where
  information : Option String := none
  category : Option String := none
  caller_id : Option String := none
  reason : Option String := none
  duration : Option Int := none
  limit : Option Int := none
deriving Repr, DecidableEq

/-- The nondeterministic inputs a single handler invocation draws from the
outside world: the `uuid.uuid4()` value used for the new record id, the
`datetime.now().isoformat()` timestamp, and the uuid generated for a
missing session id at the dispatch boundary. -/
structure Env where
  uuid : String
  now : String
  session_uuid : String
deriving Repr, DecidableEq

/-- The uniform result envelope.  Function-specific fields are `Option`s;
`none` models a key absent from the returned dictionary. -/
structure Envelope where
  success : Bool
  session_id : String
  message : Option String := none
  error : Option String := none
  info_id : Option String := none
  total_shared : Option Nat := none
  call_log_id : Option String := none
  information_shared_count : Option Nat := none
  total_calls : Option Nat := none
  information : Option (List InformationRecord) := none
  count : Option Nat := none
  total_available : Option Nat := none
deriving Repr, DecidableEq

/-- Python dict lookup `d[k]` / `k in d` on an association list. -/
def assocGet {α : Type} (l : List (String × α)) (k : String) : Option α :=
  match l with
  | [] => none
  | (k', v) :: t => if k' = k then some v else assocGet t k

/-- Python dict assignment `d[k] = v`: updates the existing binding in
place (keeping insertion order) or appends a new one. -/
def assocSet {α : Type} (l : List (String × α)) (k : String) (v : α) :
    List (String × α) :=
  match l with
  | [] => [(k, v)]
  | (k', v') :: t => if k' = k then (k, v) :: t else (k', v') :: assocSet t k v

/-- Python `del d[k]` on the key list of a dict: removes the first
occurrence of `k` (dict keys are unique, so the only one). -/
def listDel (l : List String) (k : String) : List String :=
  match l with
  | [] => []
  | h :: t => if h = k then t else h :: listDel t k

/-- `BackendAgent._save_data` (lines 45-60): stamps
`metadata["last_updated"]` with the current time and rewrites the whole
file.  File I/O is outside the model; its in-memory effect is the stamp. -/
def save_data (doc : Document) (env : Env) : Document :=
  { doc with metadata := { doc.metadata with last_updated := some env.now } }

/-- `BackendAgent._handle_share_information` (lines 91-150). -/
def handle_share_information (doc : Document) (parameters : Params)
    (session_id : String) (env : Env) : Envelope × Document :=
  let information := parameters.information.getD ""
  let category := parameters.category.getD "general"
  let caller_id := parameters.caller_id.getD "unknown"
  if information = "" then
    ({ success := false, error := some "No information provided",
       session_id := session_id }, doc)
  else
    let info_entry : InformationRecord :=
      { id := env.uuid, session_id := session_id, caller_id := caller_id,
        information := information, category := category,
        timestamp := env.now, status := "received" }
    let infos := doc.shared_data.information_shared ++ [info_entry]
    let sessions0 :=
      if (assocGet doc.sessions session_id).isSome then doc.sessions
      else assocSet doc.sessions session_id
        { created_at := env.now, caller_id := caller_id,
          information_count := 0, status := "active" }
    let sessions1 :=
      match assocGet sessions0 session_id with
      | some s => assocSet sessions0 session_id
          { s with information_count := s.information_count + 1,
                   last_activity := some env.now }
      | none => sessions0
    let doc' := save_data
      { doc with sessions := sessions1,
                 shared_data := { doc.shared_data with
                                  information_shared := infos } } env
    ({ success := true,
       message := some ("Information received and stored successfully. Category: " ++ category),
       info_id := some env.uuid, session_id := session_id,
       total_shared := some infos.length }, doc')

/-- `BackendAgent._handle_end_call` (lines 152-210). -/
def handle_end_call (doc : Document) (parameters : Params)
    (session_id : String) (env : Env) : Envelope × Document :=
  let reason := parameters.reason.getD "user_requested"
  let caller_id := parameters.caller_id.getD "unknown"
  let duration := parameters.duration.getD 0
  let session_info_count :=
    (doc.shared_data.information_shared.filter
      (fun info => info.session_id == session_id)).length
  let call_log : CallRecord :=
    { id := env.uuid, session_id := session_id, caller_id := caller_id,
      end_time := env.now, reason := reason, duration := duration,
      information_shared_count := session_info_count }
  let call_logs := doc.shared_data.call_logs ++ [call_log]
  let sessions1 :=
    match assocGet doc.sessions session_id with
    | some s => assocSet doc.sessions session_id
        { s with status := "ended", end_time := some env.now,
                 end_reason := some reason }
    | none => doc.sessions
  let active := listDel doc.shared_data.active_sessions session_id
  let doc' := save_data
    { doc with sessions := sessions1,
               shared_data := { doc.shared_data with
                                call_logs := call_logs,
                                active_sessions := active } } env
  ({ success := true,
     message := some ("Call ended successfully. Reason: " ++ reason),
     call_log_id := some env.uuid, session_id := session_id,
     information_shared_count := some session_info_count,
     total_calls := some call_logs.length }, doc')

/-- Python truthiness of a possibly-absent string parameter: `None` and
`""` are falsy, any other string truthy (`if category:` at line 222). -/
def strTruthy : Option String → Bool
  | none => false
  | some s => s ≠ ""

/-- Insertion of a record into a list already sorted by `timestamp`
descending: the record is placed before the first element whose
timestamp is less than or equal to its own. -/
def insertDesc (x : InformationRecord) : List InformationRecord → List InformationRecord
  | [] => [x]
  | y :: ys => if y.timestamp ≤ x.timestamp then x :: y :: ys
               else y :: insertDesc x ys

/-- `sorted(lst, key=lambda x: x.get("timestamp", ""), reverse=True)`
(line 229): a stable sort by timestamp, most recent (largest string)
first.  Built by right-fold insertion, which places an earlier element
before any equal-keyed later element, matching Python's stability. -/
def sortByTimestampDesc (l : List InformationRecord) : List InformationRecord :=
  l.foldr insertDesc []

/-- Python list slicing `lst[:limit]` for an arbitrary integer `limit`:
nonnegative `limit` keeps the first `limit` elements; negative `limit`
drops the last `-limit` elements. -/
def pySliceTo {α : Type} (l : List α) (limit : Int) : List α :=
  if limit < 0 then l.take (l.length - (-limit).toNat)
  else l.take limit.toNat

/-- `BackendAgent._handle_get_shared_information` (lines 212-246).
A pure read: it returns only an envelope and touches no state. -/
def handle_get_shared_information (doc : Document) (parameters : Params)
    (session_id : String) : Envelope :=
  let category := parameters.category
  let limit := parameters.limit.getD 10
  let caller_id := parameters.caller_id
  let filtered0 := doc.shared_data.information_shared
  let filtered1 :=
    if strTruthy category then
      filtered0.filter (fun info => info.category == category.getD "")
    else filtered0
  let filtered2 :=
    if strTruthy caller_id then
      filtered1.filter (fun info => info.caller_id == caller_id.getD "")
    else filtered1
  let filtered3 := pySliceTo (sortByTimestampDesc filtered2) limit
  { success := true, information := some filtered3,
    count := some filtered3.length,
    total_available := some doc.shared_data.information_shared.length,
    session_id := session_id }

/-- `BackendAgent.handle_function_call` (lines 62-89).  The state is
`Option Document`: `none` models the degraded `{}` document left by a
failed `_load_data`, on which every handler's first dictionary access
raises a `KeyError`, caught by the handler's own `except` clause and
converted to a failure envelope. -/
def handle_function_call (st : Option Document) (function_name : String)
    (parameters : Params) (session_id : Option String) (env : Env) :
    Envelope × Option Document :=
  let sid := session_id.getD env.session_uuid
  if function_name = "share_information" then
    match st with
    | some doc =>
        let r := handle_share_information doc parameters sid env
        (r.1, some r.2)
    | none => ({ success := false, error := some "KeyError: shared_data",
                 session_id := sid }, none)
  else if function_name = "end_call" then
    match st with
    | some doc =>
        let r := handle_end_call doc parameters sid env
        (r.1, some r.2)
    | none => ({ success := false, error := some "KeyError: shared_data",
                 session_id := sid }, none)
  else if function_name = "get_shared_information" then
    match st with
    | some doc => (handle_get_shared_information doc parameters sid, st)
    | none => ({ success := false, error := some "KeyError: shared_data",
                 session_id := sid }, none)
  else
    ({ success := false,
       error := some ("Unknown function: " ++ function_name),
       session_id := sid }, st)

/-! ### Helper lemmas about the dictionary and sorting models -/

theorem assocGet_assocSet {α : Type} (l : List (String × α)) (k : String) (v : α) :
    assocGet (assocSet l k v) k = some v := by
  induction l with
  | nil => simp [assocSet, assocGet]
  | cons hd t ih =>
    obtain ⟨k', v'⟩ := hd
    by_cases hk : k' = k
    · simp [assocSet, assocGet, hk]
    · simp [assocSet, assocGet, hk, ih]

theorem not_mem_listDel_of_nodup (l : List String) (k : String) (h : l.Nodup) :
    k ∉ listDel l k := by
  induction l with
  | nil => simp [listDel]
  | cons a t ih =>
    rcases List.nodup_cons.mp h with ⟨ha, ht⟩
    simp only [listDel]
    by_cases hk : a = k
    · rw [if_pos hk]
      subst hk
      exact ha
    · rw [if_neg hk]
      intro hmem
      rcases List.mem_cons.mp hmem with h1 | h2
      · exact hk h1.symm
      · exact ih ht h2

theorem insertDesc_perm (x : InformationRecord) (l : List InformationRecord) :
    List.Perm (insertDesc x l) (x :: l) := by
  induction l with
  | nil => simp [insertDesc]
  | cons y ys ih =>
    simp only [insertDesc]
    by_cases h : y.timestamp ≤ x.timestamp
    · rw [if_pos h]
    · rw [if_neg h]
      exact List.Perm.trans (List.Perm.cons y ih) (List.Perm.swap x y ys)

theorem sortByTimestampDesc_perm (l : List InformationRecord) :
    List.Perm (sortByTimestampDesc l) l := by
  induction l with
  | nil => simp [sortByTimestampDesc]
  | cons x xs ih =>
    have h1 : sortByTimestampDesc (x :: xs) = insertDesc x (sortByTimestampDesc xs) := rfl
    rw [h1]
    exact List.Perm.trans (insertDesc_perm x (sortByTimestampDesc xs)) (List.Perm.cons x ih)

/-- The ordering the query handler sorts by: timestamps descending. -/
def tsGE (a b : InformationRecord) : Prop := b.timestamp ≤ a.timestamp

theorem insertDesc_pairwise (x : InformationRecord) :
    ∀ l : List InformationRecord,
      l.Pairwise tsGE → (insertDesc x l).Pairwise tsGE := by
  intro l
  induction l with
  | nil =>
    intro _
    simp [insertDesc, tsGE]
  | cons y ys ih =>
    intro h
    rcases List.pairwise_cons.mp h with ⟨hy, hys⟩
    simp only [insertDesc]
    by_cases hle : y.timestamp ≤ x.timestamp
    · rw [if_pos hle]
      refine List.pairwise_cons.mpr ⟨?_, h⟩
      intro z hz
      rcases List.mem_cons.mp hz with rfl | hz'
      · exact hle
      · exact le_trans (hy z hz') hle
    · rw [if_neg hle]
      have hx : x.timestamp ≤ y.timestamp := le_of_not_le hle
      refine List.pairwise_cons.mpr ⟨?_, ih hys⟩
      intro z hz
      have hz2 : z ∈ x :: ys := (insertDesc_perm x ys).mem_iff.mp hz
      rcases List.mem_cons.mp hz2 with rfl | hz'
      · exact hx
      · exact hy z hz'

theorem sortByTimestampDesc_pairwise (l : List InformationRecord) :
    (sortByTimestampDesc l).Pairwise tsGE := by
  induction l with
  | nil => simp [sortByTimestampDesc]
  | cons x xs ih => exact insertDesc_pairwise x (sortByTimestampDesc xs) ih

theorem filter_filter_and {α : Type} (p q : α → Bool) (l : List α) :
    (l.filter p).filter q = l.filter (fun a => p a && q a) := by
  induction l with
  | nil => rfl
  | cons hd t ih =>
    by_cases hp : p hd <;> by_cases hq : q hd <;>
      simp [List.filter, hp, hq, ih]

/-! ### Concrete fixtures used by witnesses and counterexamples -/

/-- A document with all collections empty, as a fresh store holds. -/
def docEmpty : Document :=
  { sessions := [],
    shared_data := { call_logs := [], information_shared := [],
                     active_sessions := [] },
    metadata := { created_at := "2025-01-01T00:00:00", version := "1.0",
                  last_updated := none } }

/-- A first sample environment (uuid and clock values for one call). -/
def envA : Env :=
  { uuid := "uuid-a", now := "2025-01-01T10:00:00", session_uuid := "gen-a" }

/-- A second sample environment, with a distinct uuid and a later clock. -/
def envB : Env :=
  { uuid := "uuid-b", now := "2025-01-01T11:00:00", session_uuid := "gen-b" }

/-! ### The claims -/

/-- C5: `share_information` with absent or empty `information` returns
`success:false` (with the "No information provided" error) and mutates no
state: the document after the call is exactly the document before. -/
theorem C5_share_information_empty_no_mutation (doc : Document) (p : Params)
    (sid : String) (env : Env)
    (h : p.information = none ∨ p.information = some "") :
    (handle_share_information doc p sid env).1.success = false ∧
    (handle_share_information doc p sid env).1.error =
      some "No information provided" ∧
    (handle_share_information doc p sid env).2 = doc := by
  rcases h with h | h <;> simp [handle_share_information, h]

/-- Witness for C5 at a concrete input: absent `information`. -/
theorem C5_witness :
    (({} : Params).information = none ∨ ({} : Params).information = some "") ∧
    (handle_share_information docEmpty {} "S1" envA).1.success = false ∧
    (handle_share_information docEmpty {} "S1" envA).2 = docEmpty :=
  ⟨Or.inl rfl,
   (C5_share_information_empty_no_mutation docEmpty {} "S1" envA (Or.inl rfl)).1,
   (C5_share_information_empty_no_mutation docEmpty {} "S1" envA (Or.inl rfl)).2.2⟩

/-- C6: dispatching any function name other than the three recognized ones
returns exactly the failure envelope `{success: false, error: "Unknown
function: <name>", session_id}` (all other envelope fields absent) and
leaves the state completely unchanged. -/
theorem C6_unknown_function (st : Option Document) (function_name : String)
    (p : Params) (sid0 : Option String) (env : Env)
    (h1 : function_name ≠ "share_information")
    (h2 : function_name ≠ "end_call")
    (h3 : function_name ≠ "get_shared_information") :
    handle_function_call st function_name p sid0 env =
      ({ success := false,
         error := some ("Unknown function: " ++ function_name),
         session_id := sid0.getD env.session_uuid }, st) := by
  simp only [handle_function_call]
  rw [if_neg h1, if_neg h2, if_neg h3]

/-- Witness for C6 at a concrete input: the name "foo". -/
theorem C6_witness :
    ("foo" ≠ "share_information") ∧ ("foo" ≠ "end_call") ∧
    ("foo" ≠ "get_shared_information") ∧
    handle_function_call (some docEmpty) "foo" {} (some "S1") envA =
      ({ success := false, error := some ("Unknown function: " ++ "foo"),
         session_id := (some "S1").getD envA.session_uuid },
       some docEmpty) :=
  ⟨by decide, by decide, by decide,
   C6_unknown_function (some docEmpty) "foo" {} (some "S1") envA
     (by decide) (by decide) (by decide)⟩

/-- C10: an empty-string `category` (resp. `caller_id`) parameter is falsy,
so the corresponding filter is not applied at all: the call behaves
exactly as if the parameter were absent. -/
theorem C10_empty_filter_param_ignored (doc : Document) (p : Params)
    (sid : String) :
    handle_get_shared_information doc { p with category := some "" } sid =
      handle_get_shared_information doc { p with category := none } sid ∧
    handle_get_shared_information doc { p with caller_id := some "" } sid =
      handle_get_shared_information doc { p with caller_id := none } sid :=
  ⟨rfl, rfl⟩

/-- C2 counterexample: `end_call` dispatched for the never-seen session id
"S1" on a fresh document does NOT materialize a Session — the sessions
mapping is still empty afterwards, refuting the claim that a Session for
the id exists after the call. -/
theorem C2_counterexample :
    (handle_end_call docEmpty {} "S1" envA).2.sessions = [] ∧
    assocGet (handle_end_call docEmpty {} "S1" envA).2.sessions "S1" = none :=
  ⟨rfl, rfl⟩

/-- C2 amended: only `share_information` materializes a Session on first
reference.  `end_call` on an id with no existing Session succeeds but
leaves the sessions mapping completely unchanged — in particular no entry
for that id exists afterwards. -/
theorem C2_amended_end_call_creates_no_session (doc : Document) (p : Params)
    (sid : String) (env : Env) (h : assocGet doc.sessions sid = none) :
    (handle_end_call doc p sid env).1.success = true ∧
    (handle_end_call doc p sid env).2.sessions = doc.sessions ∧
    assocGet (handle_end_call doc p sid env).2.sessions sid = none := by
  have h1 : (handle_end_call doc p sid env).2.sessions = doc.sessions := by
    simp [handle_end_call, save_data, h]
  refine ⟨by simp [handle_end_call], h1, ?_⟩
  rw [h1]
  exact h

/-- Witness for the amended C2 at a concrete input. -/
theorem C2_amended_witness :
    assocGet docEmpty.sessions "S1" = none ∧
    (handle_end_call docEmpty {} "S1" envA).1.success = true ∧
    (handle_end_call docEmpty {} "S1" envA).2.sessions = docEmpty.sessions :=
  ⟨rfl,
   (C2_amended_end_call_creates_no_session docEmpty {} "S1" envA rfl).1,
   (C2_amended_end_call_creates_no_session docEmpty {} "S1" envA rfl).2.1⟩

/-- C9 counterexample: in the document that the store initializes (the
`default_data` literal of `_load_data`), `information_shared`, `call_logs`
and `active_sessions` are NOT top-level keys — looking them up at the top
level yields nothing, and the top-level keys are exactly `sessions`,
`shared_data` and `metadata`. -/
theorem C9_counterexample :
    (default_data "t0").lookupKey "information_shared" = none ∧
    (default_data "t0").lookupKey "call_logs" = none ∧
    (default_data "t0").lookupKey "active_sessions" = none ∧
    (default_data "t0").keys = ["sessions", "shared_data", "metadata"] :=
  ⟨rfl, rfl, rfl, rfl⟩

/-- C9 amended: the initialized document has top-level keys `sessions`,
`shared_data` and `metadata`; `call_logs`, `information_shared` and
`active_sessions` are nested under the intermediate top-level key
`shared_data` (starting as empty collections), and `metadata` holds
`created_at`, `version` "1.0" and a null `last_updated`. -/
theorem C9_amended_nested_layout (now : String) :
    (default_data now).keys = ["sessions", "shared_data", "metadata"] ∧
    (default_data now).lookupKey "sessions" = some (.obj []) ∧
    ((default_data now).lookupKey "shared_data" = some (.obj [
        ("call_logs", .arr []),
        ("information_shared", .arr []),
        ("active_sessions", .obj [])])) ∧
    ((default_data now).lookupKey "metadata" = some (.obj [
        ("created_at", .str now),
        ("version", .str "1.0"),
        ("last_updated", .nul)])) :=
  ⟨rfl, rfl, rfl, rfl⟩

/-- C1: a `share_information` call with non-empty `information` appends
exactly one InformationRecord to the information log, returns
`success:true` with `total_shared` equal to the post-insert log length
(one more than before, so it strictly increases by 1 per such call), and
afterwards a Session for the id exists — created if missing — whose
`information_count` is the previous count (0 for a fresh session) plus 1
and whose `last_activity` is refreshed to the call's timestamp. -/
theorem C1_share_information_success (doc : Document) (p : Params)
    (sid : String) (env : Env) (i : String)
    (hi : p.information = some i) (hne : i ≠ "") :
    (handle_share_information doc p sid env).1.success = true ∧
    (handle_share_information doc p sid env).1.total_shared =
      some (doc.shared_data.information_shared.length + 1) ∧
    (handle_share_information doc p sid env).2.shared_data.information_shared =
      doc.shared_data.information_shared ++
        [{ id := env.uuid, session_id := sid,
           caller_id := p.caller_id.getD "unknown", information := i,
           category := p.category.getD "general", timestamp := env.now,
           status := "received" }] ∧
    ∃ s', assocGet (handle_share_information doc p sid env).2.sessions sid =
            some s' ∧
      s'.information_count =
        (match assocGet doc.sessions sid with
         | some s => s.information_count
         | none => 0) + 1 ∧
      s'.last_activity = some env.now := by
  cases h : assocGet doc.sessions sid with
  | some s =>
    refine ⟨?_, ?_, ?_, ?_⟩ <;>
      simp [handle_share_information, save_data, hi, hne, h, assocGet_assocSet]
  | none =>
    refine ⟨?_, ?_, ?_, ?_⟩ <;>
      simp [handle_share_information, save_data, hi, hne, h, assocGet_assocSet]

/-- Parameters carrying a sample non-empty information payload. -/
def paramsInfo : Params :=
  { information := some "hello", category := some "sales",
    caller_id := some "caller-1" }

/-- Witness for C1 at a concrete input. -/
theorem C1_witness :
    paramsInfo.information = some "hello" ∧ "hello" ≠ "" ∧
    (handle_share_information docEmpty paramsInfo "S1" envA).1.success = true ∧
    (handle_share_information docEmpty paramsInfo "S1" envA).1.total_shared =
      some (docEmpty.shared_data.information_shared.length + 1) :=
  ⟨rfl, by decide,
   (C1_share_information_success docEmpty paramsInfo "S1" envA "hello"
     rfl (by decide)).1,
   (C1_share_information_success docEmpty paramsInfo "S1" envA "hello"
     rfl (by decide)).2.1⟩

/-- `share_information` never touches the call log (it only appends to the
information log and updates the session entry). -/
theorem share_information_preserves_call_logs (doc : Document) (p : Params)
    (sid : String) (env : Env) :
    (handle_share_information doc p sid env).2.shared_data.call_logs =
      doc.shared_data.call_logs := by
  by_cases h : p.information.getD "" = "" <;>
    simp [handle_share_information, save_data, h]

/-- `end_call` only ever appends to the call log: the previous entries are
preserved unchanged as a prefix. -/
theorem end_call_extends_call_logs (doc : Document) (p : Params)
    (sid : String) (env : Env) :
    ∃ t, (handle_end_call doc p sid env).2.shared_data.call_logs =
      doc.shared_data.call_logs ++ t :=
  ⟨[{ id := env.uuid, session_id := sid,
      caller_id := p.caller_id.getD "unknown", end_time := env.now,
      reason := p.reason.getD "user_requested", duration := p.duration.getD 0,
      information_shared_count :=
        (doc.shared_data.information_shared.filter
          (fun info => info.session_id == sid)).length }],
   by simp [handle_end_call, save_data]⟩

/-- C4: every `end_call` appends exactly one CallRecord whose
`information_shared_count` is the number of information records matching
the session id at call time; the envelope reports `success:true` with that
count and with `total_calls` equal to the post-append call-log length; the
Session, when present, is marked ended with `end_time` and `end_reason`
set; the id is gone from `active_sessions` afterwards (its keys, being
dict keys, are duplicate-free — no error if it was absent); and the
snapshot is never updated later: subsequent `share_information` calls
preserve the call log and subsequent `end_call`s only append to it. -/
theorem C4_end_call_appends_snapshot (doc : Document) (p : Params)
    (sid : String) (env : Env)
    (hnd : doc.shared_data.active_sessions.Nodup) :
    (handle_end_call doc p sid env).1.success = true ∧
    (handle_end_call doc p sid env).2.shared_data.call_logs =
      doc.shared_data.call_logs ++
        [{ id := env.uuid, session_id := sid,
           caller_id := p.caller_id.getD "unknown", end_time := env.now,
           reason := p.reason.getD "user_requested",
           duration := p.duration.getD 0,
           information_shared_count :=
             (doc.shared_data.information_shared.filter
               (fun info => info.session_id == sid)).length }] ∧
    (handle_end_call doc p sid env).1.information_shared_count =
      some ((doc.shared_data.information_shared.filter
        (fun info => info.session_id == sid)).length) ∧
    (handle_end_call doc p sid env).1.total_calls =
      some (doc.shared_data.call_logs.length + 1) ∧
    (∀ s, assocGet doc.sessions sid = some s →
      assocGet (handle_end_call doc p sid env).2.sessions sid =
        some { s with status := "ended", end_time := some env.now,
                      end_reason := some (p.reason.getD "user_requested") }) ∧
    sid ∉ (handle_end_call doc p sid env).2.shared_data.active_sessions ∧
    (∀ p2 sid2 env2,
      (handle_share_information (handle_end_call doc p sid env).2 p2 sid2
          env2).2.shared_data.call_logs =
        (handle_end_call doc p sid env).2.shared_data.call_logs) ∧
    (∀ p2 sid2 env2, ∃ t,
      (handle_end_call (handle_end_call doc p sid env).2 p2 sid2
          env2).2.shared_data.call_logs =
        (handle_end_call doc p sid env).2.shared_data.call_logs ++ t) := by
  refine ⟨by simp [handle_end_call],
    by simp [handle_end_call, save_data],
    by simp [handle_end_call],
    by simp [handle_end_call, save_data],
    ?_, ?_, ?_, ?_⟩
  · intro s hs
    simp [handle_end_call, save_data, hs, assocGet_assocSet]
  · have heq : (handle_end_call doc p sid env).2.shared_data.active_sessions =
        listDel doc.shared_data.active_sessions sid := by
      simp [handle_end_call, save_data]
    rw [heq]
    exact not_mem_listDel_of_nodup _ _ hnd
  · intro p2 sid2 env2
    exact share_information_preserves_call_logs _ p2 sid2 env2
  · intro p2 sid2 env2
    exact end_call_extends_call_logs _ p2 sid2 env2

/-- A document with one active session "S1", one information record for it
and "S1" among the active-session keys. -/
def docActive : Document :=
  { sessions := [("S1",
      { created_at := "2025-01-01T09:00:00", caller_id := "caller-1",
        information_count := 1, status := "active" })],
    shared_data := { call_logs := [],
                     information_shared := [
                       { id := "i1", session_id := "S1",
                         caller_id := "caller-1", information := "hello",
                         category := "general",
                         timestamp := "2025-01-01T09:00:00",
                         status := "received" }],
                     active_sessions := ["S1"] },
    metadata := { created_at := "2025-01-01T00:00:00", version := "1.0",
                  last_updated := none } }

/-- Witness for C4 at a concrete input. -/
theorem C4_witness :
    docActive.shared_data.active_sessions.Nodup ∧
    (handle_end_call docActive {} "S1" envA).1.success = true ∧
    (handle_end_call docActive {} "S1" envA).1.information_shared_count =
      some ((docActive.shared_data.information_shared.filter
        (fun info => info.session_id == "S1")).length) ∧
    "S1" ∉ (handle_end_call docActive {} "S1" envA).2.shared_data.active_sessions :=
  ⟨by simp [docActive],
   (C4_end_call_appends_snapshot docActive {} "S1" envA (by simp [docActive])).1,
   (C4_end_call_appends_snapshot docActive {} "S1" envA
     (by simp [docActive])).2.2.1,
   (C4_end_call_appends_snapshot docActive {} "S1" envA
     (by simp [docActive])).2.2.2.2.2.1⟩

/-- C7: two successive `end_call`s on a session id that has a Session both
succeed with no error; after the second call the Session's status is
still "ended" and its end fields are overwritten by the second call's
values; and the call log grows by one CallRecord per call — the second
call appends a second, distinct record (distinct id) rather than
deduplicating. -/
theorem C7_end_call_twice (doc : Document) (p1 p2 : Params) (sid : String)
    (env1 env2 : Env) (s : Session)
    (hs : assocGet doc.sessions sid = some s)
    (hu : env1.uuid ≠ env2.uuid) :
    (handle_end_call doc p1 sid env1).1.success = true ∧
    (handle_end_call (handle_end_call doc p1 sid env1).2 p2 sid
        env2).1.success = true ∧
    (handle_end_call (handle_end_call doc p1 sid env1).2 p2 sid
        env2).1.error = none ∧
    (∃ s2, assocGet (handle_end_call (handle_end_call doc p1 sid env1).2 p2
          sid env2).2.sessions sid = some s2 ∧
      s2.status = "ended" ∧ s2.end_time = some env2.now ∧
      s2.end_reason = some (p2.reason.getD "user_requested")) ∧
    (handle_end_call (handle_end_call doc p1 sid env1).2 p2 sid
        env2).2.shared_data.call_logs.length =
      doc.shared_data.call_logs.length + 2 ∧
    (∃ r1 r2, (handle_end_call (handle_end_call doc p1 sid env1).2 p2 sid
          env2).2.shared_data.call_logs =
        doc.shared_data.call_logs ++ [r1, r2] ∧ r1 ≠ r2) := by
  refine ⟨by simp [handle_end_call], by simp [handle_end_call],
    by simp [handle_end_call], ?_, ?_, ?_⟩
  · refine ⟨{ s with status := "ended", end_time := some env2.now,
                     end_reason := some (p2.reason.getD "user_requested") },
      ?_, rfl, rfl, rfl⟩
    simp [handle_end_call, save_data, hs, assocGet_assocSet]
  · simp [handle_end_call, save_data]
  · refine ⟨{ id := env1.uuid, session_id := sid,
               caller_id := p1.caller_id.getD "unknown",
               end_time := env1.now,
               reason := p1.reason.getD "user_requested",
               duration := p1.duration.getD 0,
               information_shared_count :=
                 (doc.shared_data.information_shared.filter
                   (fun info => info.session_id == sid)).length },
            { id := env2.uuid, session_id := sid,
              caller_id := p2.caller_id.getD "unknown",
              end_time := env2.now,
              reason := p2.reason.getD "user_requested",
              duration := p2.duration.getD 0,
              information_shared_count :=
                (doc.shared_data.information_shared.filter
                  (fun info => info.session_id == sid)).length },
            ?_, ?_⟩
    · simp [handle_end_call, save_data]
    · intro hr
      exact hu (congrArg CallRecord.id hr)

/-- Witness for C7 at a concrete input: ending session "S1" twice. -/
theorem C7_witness :
    assocGet docActive.sessions "S1" =
      some { created_at := "2025-01-01T09:00:00", caller_id := "caller-1",
             information_count := 1, status := "active" } ∧
    envA.uuid ≠ envB.uuid ∧
    (handle_end_call docActive {} "S1" envA).1.success = true ∧
    (handle_end_call (handle_end_call docActive {} "S1" envA).2 {} "S1"
        envB).1.success = true ∧
    (handle_end_call (handle_end_call docActive {} "S1" envA).2 {} "S1"
        envB).2.shared_data.call_logs.length =
      docActive.shared_data.call_logs.length + 2 :=
  ⟨rfl, by decide,
   (C7_end_call_twice docActive {} {} "S1" envA envB _ rfl (by decide)).1,
   (C7_end_call_twice docActive {} {} "S1" envA envB _ rfl (by decide)).2.1,
   (C7_end_call_twice docActive {} {} "S1" envA envB _ rfl
     (by decide)).2.2.2.2.1⟩

/-- The record predicate of the query claim: keep exactly the records
whose `category` equals the given category (when one is given) and whose
`caller_id` equals the given caller id (when one is given), the two
conditions conjoined when both are given. -/
def specKeep (p : Params) (r : InformationRecord) : Bool :=
  (match p.category with
   | some c => r.category == c
   | none => true) &&
  (match p.caller_id with
   | some a => r.caller_id == a
   | none => true)

/-- On genuinely-given filters (no empty strings, see C10 for those), the
query handler's sequential truthiness-guarded filtering coincides with a
single pass keeping exactly the records selected by `specKeep`. -/
theorem handle_get_eq_spec (doc : Document) (p : Params) (sid : String)
    (hc : p.category ≠ some "") (ha : p.caller_id ≠ some "") :
    handle_get_shared_information doc p sid =
      { success := true,
        information := some (pySliceTo (sortByTimestampDesc
          (doc.shared_data.information_shared.filter (fun r => specKeep p r)))
          (p.limit.getD 10)),
        count := some (pySliceTo (sortByTimestampDesc
          (doc.shared_data.information_shared.filter (fun r => specKeep p r)))
          (p.limit.getD 10)).length,
        total_available := some doc.shared_data.information_shared.length,
        session_id := sid } := by
  cases hcat : p.category with
  | none =>
    cases hcal : p.caller_id with
    | none =>
      simp [handle_get_shared_information, specKeep, strTruthy, hcat, hcal]
    | some a =>
      have ha' : a ≠ "" := fun h => ha (by rw [hcal, h])
      simp [handle_get_shared_information, specKeep, strTruthy, hcat, hcal,
        ha']
  | some c =>
    have hc' : c ≠ "" := fun h => hc (by rw [hcat, h])
    cases hcal : p.caller_id with
    | none =>
      simp [handle_get_shared_information, specKeep, strTruthy, hcat, hcal,
        hc']
    | some a =>
      have ha' : a ≠ "" := fun h => ha (by rw [hcal, h])
      simp [handle_get_shared_information, specKeep, strTruthy, hcat, hcal,
        hc', ha', filter_filter_and, Bool.and_comm]

/-- C3: for a query whose given filters are genuine (no empty strings —
those are falsy, see C10) and whose limit is a nonnegative count, the
handler returns exactly the records selected by `specKeep` (category and
caller filters, conjoined when both given), sorted by timestamp in
descending string order — the sorted list is a permutation of the
filtered records and pairwise descending — truncated to the first
`limit` entries; `count` equals the returned list's length;
`total_available` equals the length of the whole unfiltered log; and the
dispatched call leaves the document unchanged. -/
theorem C3_get_shared_information (doc : Document) (p : Params)
    (sid : String)
    (hc : p.category ≠ some "") (ha : p.caller_id ≠ some "")
    (hl : 0 ≤ p.limit.getD 10) :
    (handle_get_shared_information doc p sid).success = true ∧
    (handle_get_shared_information doc p sid).information =
      some ((sortByTimestampDesc (doc.shared_data.information_shared.filter
        (fun r => specKeep p r))).take (p.limit.getD 10).toNat) ∧
    (handle_get_shared_information doc p sid).count =
      some ((sortByTimestampDesc (doc.shared_data.information_shared.filter
        (fun r => specKeep p r))).take (p.limit.getD 10).toNat).length ∧
    (handle_get_shared_information doc p sid).total_available =
      some doc.shared_data.information_shared.length ∧
    List.Perm (sortByTimestampDesc (doc.shared_data.information_shared.filter
        (fun r => specKeep p r)))
      (doc.shared_data.information_shared.filter (fun r => specKeep p r)) ∧
    (sortByTimestampDesc (doc.shared_data.information_shared.filter
        (fun r => specKeep p r))).Pairwise tsGE ∧
    (∀ sid0 env, (handle_function_call (some doc) "get_shared_information" p
        sid0 env).2 = some doc) := by
  have he := handle_get_eq_spec doc p sid hc ha
  have hslice : pySliceTo (sortByTimestampDesc
      (doc.shared_data.information_shared.filter (fun r => specKeep p r)))
      (p.limit.getD 10) =
      (sortByTimestampDesc (doc.shared_data.information_shared.filter
        (fun r => specKeep p r))).take (p.limit.getD 10).toNat := by
    simp only [pySliceTo]
    rw [if_neg (not_lt.mpr hl)]
  refine ⟨by rw [he], by rw [he, hslice], by rw [he, hslice], by rw [he],
    sortByTimestampDesc_perm _, sortByTimestampDesc_pairwise _, ?_⟩
  intro sid0 env
  rfl

/-- A sample record in category "sales" with the earliest timestamp. -/
def recAlpha : InformationRecord :=
  { id := "i1", session_id := "S1", caller_id := "caller-1",
    information := "alpha", category := "sales",
    timestamp := "2025-01-01T09:00:00", status := "received" }

/-- A sample record in category "support". -/
def recBeta : InformationRecord :=
  { id := "i2", session_id := "S1", caller_id := "caller-1",
    information := "beta", category := "support",
    timestamp := "2025-01-01T10:00:00", status := "received" }

/-- A sample record in category "sales" with the latest timestamp. -/
def recGamma : InformationRecord :=
  { id := "i3", session_id := "S2", caller_id := "caller-2",
    information := "gamma", category := "sales",
    timestamp := "2025-01-01T11:00:00", status := "received" }

/-- A document holding the three sample records. -/
def docThree : Document :=
  { sessions := [],
    shared_data := { call_logs := [],
                     information_shared := [recAlpha, recBeta, recGamma],
                     active_sessions := [] },
    metadata := { created_at := "2025-01-01T00:00:00", version := "1.0",
                  last_updated := none } }

/-- Query parameters: category "sales", limit 2. -/
def paramsSales : Params := { category := some "sales", limit := some 2 }

/-- Witness for C3 at a concrete input. -/
theorem C3_witness :
    paramsSales.category ≠ some "" ∧ paramsSales.caller_id ≠ some "" ∧
    0 ≤ paramsSales.limit.getD 10 ∧
    (handle_get_shared_information docThree paramsSales "S1").success =
      true ∧
    (handle_get_shared_information docThree paramsSales "S1").information =
      some ((sortByTimestampDesc (docThree.shared_data.information_shared.filter
        (fun r => specKeep paramsSales r))).take
        (paramsSales.limit.getD 10).toNat) ∧
    (handle_get_shared_information docThree paramsSales "S1").total_available =
      some docThree.shared_data.information_shared.length :=
  ⟨by decide, by decide, by decide,
   (C3_get_shared_information docThree paramsSales "S1" (by decide)
     (by decide) (by decide)).1,
   (C3_get_shared_information docThree paramsSales "S1" (by decide)
     (by decide) (by decide)).2.1,
   (C3_get_shared_information docThree paramsSales "S1" (by decide)
     (by decide) (by decide)).2.2.2.1⟩

/-- C8: the dispatcher never propagates an exception: for every function
name, parameter bag, session id (present or absent) and state (including
the degraded document of a failed load), it returns a well-formed envelope
whose `session_id` is the given (or freshly generated) id and which is
either a success or a failure carrying an error message; in particular,
for each recognized handler the KeyError raised on the degraded document
is converted into `{success: false, error, session_id}`. -/
theorem C8_dispatch_never_raises (st : Option Document)
    (function_name : String) (p : Params) (sid0 : Option String)
    (env : Env) :
    (handle_function_call st function_name p sid0 env).1.session_id =
      sid0.getD env.session_uuid ∧
    ((handle_function_call st function_name p sid0 env).1.success = true ∨
     ((handle_function_call st function_name p sid0 env).1.success = false ∧
      (handle_function_call st function_name p sid0 env).1.error.isSome =
        true)) ∧
    (handle_function_call none "share_information" p sid0 env).1 =
      { success := false, error := some "KeyError: shared_data",
        session_id := sid0.getD env.session_uuid } ∧
    (handle_function_call none "end_call" p sid0 env).1 =
      { success := false, error := some "KeyError: shared_data",
        session_id := sid0.getD env.session_uuid } ∧
    (handle_function_call none "get_shared_information" p sid0 env).1 =
      { success := false, error := some "KeyError: shared_data",
        session_id := sid0.getD env.session_uuid } := by
  refine ⟨?_, ?_, rfl, rfl, rfl⟩
  · by_cases h1 : function_name = "share_information"
    · subst h1
      cases st with
      | none => rfl
      | some doc =>
        by_cases h : p.information.getD "" = "" <;>
          simp [handle_function_call, handle_share_information, h]
    · by_cases h2 : function_name = "end_call"
      · subst h2
        cases st with
        | none => rfl
        | some doc => simp [handle_function_call, handle_end_call]
      · by_cases h3 : function_name = "get_shared_information"
        · subst h3
          cases st with
          | none => rfl
          | some doc =>
            simp [handle_function_call, handle_get_shared_information]
        · simp only [handle_function_call]
          rw [if_neg h1, if_neg h2, if_neg h3]
  · by_cases h1 : function_name = "share_information"
    · subst h1
      cases st with
      | none => exact Or.inr ⟨rfl, rfl⟩
      | some doc =>
        by_cases h : p.information.getD "" = ""
        · refine Or.inr ⟨?_, ?_⟩ <;>
            simp [handle_function_call, handle_share_information, h]
        · exact Or.inl (by
            simp [handle_function_call, handle_share_information, h])
    · by_cases h2 : function_name = "end_call"
      · subst h2
        cases st with
        | none => exact Or.inr ⟨rfl, rfl⟩
        | some doc =>
          exact Or.inl (by simp [handle_function_call, handle_end_call])
      · by_cases h3 : function_name = "get_shared_information"
        · subst h3
          cases st with
          | none => exact Or.inr ⟨rfl, rfl⟩
          | some doc =>
            exact Or.inl (by
              simp [handle_function_call, handle_get_shared_information])
        · refine Or.inr ⟨?_, ?_⟩
          · simp only [handle_function_call]
            rw [if_neg h1, if_neg h2, if_neg h3]
          · simp only [handle_function_call]
            rw [if_neg h1, if_neg h2, if_neg h3]
            rfl
